import Mathlib

/-!
Verification of the subscription-tracker persistence and synchronization layer.

Shallow embedding of the repository's core logic:
- the Subscription data model (src/app/lib/subscriptions.ts and the
  superseding src/unnamed/part_005 module);
- the Local Cache Store over a key-value storage surface
  (loadSubscriptionsLocal / saveSubscriptionsLocal);
- the Remote Store Adapter (loadSubscriptionsFromDB / saveSubscriptionsToDB);
- the Migration Engine (migrateSubscriptionsToDB);
- the Persistence Facade (loadSubscriptions);
- Derived Analytics (calculateTotalMonthlyCost, findUpcomingRenewals,
  calculateMonthlyRenewal).

Modelling conventions:
- The runtime record is modelled field by field; cycle, status and category
  are strings compared by equality, exactly as the JavaScript compares them.
- Dates are epoch-millisecond integers. The source normalizes a date to
  midnight with setHours(0,0,0,0) and serializes with toISOString; both are
  modelled in a zero-offset timezone, so midnight normalization is flooring
  to a multiple of 86400000 and an ISO-8601 string is modelled by the exact
  millisecond timestamp it denotes (ISO serialization of a valid Date is
  injective and parses back to the same timestamp).
- The browser key-value storage is a single map from string keys to stored
  values; a stored subscription blob either deserializes to a record list or
  is corrupt (JSON.parse throws). All values the code ever stores are
  non-empty strings, hence truthy.
- Remote failures are injected through an environment of failure flags, one
  per query kind, standing for the error results the remote client returns.
  Each adapter operation is a state transformer that also reports the number
  of successfully executed mutation statements, so that write-freedom claims
  are expressible. Server-assigned row ids are modelled by a counter.
- The execution context is a browser with the remote client module loadable:
  the typeof-window guards and the dynamic-import guard, which short-circuit
  the whole layer to its degenerate results, are outside the claims.
-/

/-- The in-memory subscription record, as produced and consumed at runtime. -/
structure Subscription where
  id : String
  name : String
  cost : ℚ
  renewalDate : ℤ
  cycle : String
  status : String
  category : String
deriving DecidableEq

/-- A subscription record as it sits deserialized inside a cached JSON blob:
renewalDate is the ISO string (modelled by its timestamp) and category may be
missing (old data) or any string, including empty. -/
structure RawSub where
  id : String
  name : String
  cost : ℚ
  renewalDate : ℤ
  cycle : String
  status : String
  category : Option String
deriving DecidableEq

/-- A row of the remote subscriptions table (DatabaseSubscription). -/
structure DBSub where
  id : String
  user_id : String
  name : String
  cost : ℚ
  renewal_date : ℤ
  cycle : String
  status : String
  category : String
deriving DecidableEq

/-- A cached subscription blob: the result of JSON.parse on the stored
string, or corrupt when parsing throws. -/
inductive Blob where
  | ok (records : List RawSub)
  | corrupt
deriving DecidableEq

/-- A value held in the key-value storage: a subscription blob under a
storage key, or the literal string true under a migration-marker key. -/
inductive Item where
  | blob (b : Blob)
  | flagTrue
deriving DecidableEq

/-- Mutable state of both stores: the browser key-value storage, the remote
subscriptions table grouped by owner id, and the server's id counter. -/
structure State where
  localStorage : String → Option Item
  remote : String → List DBSub
  nextId : ℕ

/-- Failure injection for the remote client: one flag per statement kind,
true meaning the client answers that statement with an error result. -/
structure Env where
  listFails : Bool
  deleteFails : Bool
  insertFails : Bool

/-- Milliseconds per day, the granularity of JavaScript date arithmetic. -/
def msPerDay : ℤ := 86400000

/-- setHours(0,0,0,0): floor the timestamp to midnight. -/
def normalizeDate (t : ℤ) : ℤ := msPerDay * (t.fdiv msPerDay)

/-- toISOString().split('T')[0] parsed back by new Date: the date-only
truncation used by the remote serialization path. -/
def dateOnly (t : ℤ) : ℤ := msPerDay * (t.fdiv msPerDay)

/-- getStorageKey from the source: the namespaced cache key of an owner. -/
def getStorageKey (username : String) : String := "subscriptions_" ++ username

/-- The migration-marker key for a remote identity id. -/
def markerKey (userId : String) : String := "migrated_to_db_" ++ userId

/-- Truthiness of localStorage.getItem under the marker key: every value the
code stores is a non-empty string, so presence alone decides truthiness. -/
def markerSet (st : State) (userId : String) : Bool :=
  match st.localStorage (markerKey userId) with
  | some _ => true
  | none => false

/-- localStorage.setItem(markerKey, the string true). -/
def setMarker (st : State) (userId : String) : State :=
  { st with localStorage :=
      fun k => if k = markerKey userId then some Item.flagTrue else st.localStorage k }

/-- The JavaScript expression x OR-ELSE d on an optional string: undefined,
null and the empty string are falsy and fall through to the default. -/
def jsOrDefault (x : Option String) (d : String) : String :=
  match x with
  | none => d
  | some c => if c = "" then d else c

/-- One serialized record, as saveSubscriptionsLocal writes it: the spread of
the record with renewalDate replaced by its ISO string. -/
def encodeRaw (s : Subscription) : RawSub :=
  { id := s.id, name := s.name, cost := s.cost, renewalDate := s.renewalDate,
    cycle := s.cycle, status := s.status, category := some s.category }

/-- One deserialized record, as loadSubscriptionsLocal rebuilds it: the
spread of the parsed record with renewalDate re-wrapped as a Date and
category defaulted to Software when falsy. -/
def decodeRaw (r : RawSub) : Subscription :=
  { id := r.id, name := r.name, cost := r.cost, renewalDate := r.renewalDate,
    cycle := r.cycle, status := r.status,
    category := jsOrDefault r.category "Software" }

/-- loadSubscriptionsLocal: read the owner's cache key; absence yields the
empty list, a parse failure is caught and yields the empty list, otherwise
each parsed record is rebuilt. A non-list value under the key (the marker
string) makes the record mapping throw, also caught to the empty list. -/
def loadSubscriptionsLocal (st : State) (username : String) : List Subscription :=
  match st.localStorage (getStorageKey username) with
  | none => []
  | some (Item.blob (Blob.ok records)) => records.map decodeRaw
  | some (Item.blob Blob.corrupt) => []
  | some Item.flagTrue => []

/-- saveSubscriptionsLocal: serialize the list and store it under the
owner's cache key. -/
def saveSubscriptionsLocal (st : State) (subscriptions : List Subscription)
    (username : String) : State :=
  { st with localStorage :=
      fun k => if k = getStorageKey username
        then some (Item.blob (Blob.ok (subscriptions.map encodeRaw)))
        else st.localStorage k }

/-- Ordering relation for the remote query's order-by on renewal_date. -/
def leRowRenewal (a b : DBSub) : Prop := a.renewal_date ≤ b.renewal_date

instance : DecidableRel leRowRenewal :=
  fun a b => inferInstanceAs (Decidable (a.renewal_date ≤ b.renewal_date))

/-- loadSubscriptionsFromDB: select the owner's rows ordered by renewal_date
ascending and rebuild records. An error result is logged and absorbed into
the empty list, exactly as the source's early return does. -/
def loadSubscriptionsFromDB (env : Env) (st : State) (userId : String) :
    List Subscription :=
  if env.listFails then []
  else (List.insertionSort leRowRenewal (st.remote userId)).map
    (fun r => { id := r.id, name := r.name, cost := r.cost,
                renewalDate := r.renewal_date, cycle := r.cycle,
                status := r.status, category := r.category })

/-- The row built for an insert: the record's fields under the owner id,
renewal_date truncated to date-only, id assigned by the server. -/
def subToDB (userId rowId : String) (s : Subscription) : DBSub :=
  { id := rowId, user_id := userId, name := s.name, cost := s.cost,
    renewal_date := dateOnly s.renewalDate, cycle := s.cycle,
    status := s.status, category := s.category }

/-- saveSubscriptionsToDB, the adapter's replaceAll: first delete every row
of the owner, then, when the list is non-empty, insert the new rows. A
failed delete returns false with nothing changed; a failed insert returns
false with the owner's rows already gone. The third component counts the
successfully executed mutation statements. -/
def saveSubscriptionsToDB (env : Env) (st : State)
    (subscriptions : List Subscription) (userId : String) :
    Bool × State × ℕ :=
  if env.deleteFails then (false, st, 0)
  else
    let deleted : State :=
      { st with remote := fun k => if k = userId then [] else st.remote k }
    if 0 < subscriptions.length then
      if env.insertFails then (false, deleted, 1)
      else
        let rows := (subscriptions.enum).map
          (fun p => subToDB userId ("row" ++ toString (st.nextId + p.1)) p.2)
        (true,
         { deleted with
             remote := fun k => if k = userId then rows else deleted.remote k,
             nextId := st.nextId + subscriptions.length },
         2)
    else (true, deleted, 1)

/-- migrateSubscriptionsToDB, the Migration Engine: return at once when the
marker is set; otherwise read the owner's cache and, when non-empty, push it
through replaceAll, setting the marker only on success; an empty cache just
sets the marker. The second component counts executed writes, the marker
store included. -/
def migrateSubscriptionsToDB (env : Env) (st : State)
    (userId username : String) : State × ℕ :=
  if markerSet st userId then (st, 0)
  else
    let localSubs := loadSubscriptionsLocal st username
    if 0 < localSubs.length then
      let r := saveSubscriptionsToDB env st localSubs userId
      if r.1 then (setMarker r.2.1 userId, r.2.2 + 1) else (r.2.1, r.2.2)
    else (setMarker st userId, 1)

/-- loadSubscriptions, the Persistence Facade's load: with a remote id, query
the adapter; keep a non-empty answer, or any answer once the marker is set;
otherwise, when the cache is non-empty, migrate and re-query; with no remote
id, read the cache. The try-catch around the remote branch is unreachable
because every adapter operation absorbs its own errors, so it is not part of
the model. -/
def loadSubscriptions (env : Env) (st : State) (userKey : String)
    (userId : Option String) : List Subscription × State :=
  match userId with
  | some uid =>
    let dbSubs := loadSubscriptionsFromDB env st uid
    if 0 < dbSubs.length ∨ markerSet st uid = true then (dbSubs, st)
    else
      let localSubs := loadSubscriptionsLocal st userKey
      if 0 < localSubs.length then
        let m := migrateSubscriptionsToDB env st uid userKey
        (loadSubscriptionsFromDB env m.1 uid, m.1)
      else (dbSubs, st)
  | none => (loadSubscriptionsLocal st userKey, st)

/-- calculateTotalMonthlyCost: filter to Active, then fold, adding the cost
as-is for a Monthly cycle and cost divided by twelve otherwise. -/
def calculateTotalMonthlyCost (subscriptions : List Subscription) : ℚ :=
  let activeSubs := subscriptions.filter (fun s => s.status == "Active")
  activeSubs.foldl
    (fun total s =>
      if s.cycle == "Monthly" then total + s.cost else total + s.cost / 12) 0

/-- Ordering relation used by the comparator on normalized renewal dates. -/
def leNorm (a b : ℤ × Subscription) : Prop := a.1 ≤ b.1

instance : DecidableRel leNorm :=
  fun a b => inferInstanceAs (Decidable (a.1 ≤ b.1))

instance : IsTotal (ℤ × Subscription) leNorm := ⟨fun a b => le_total a.1 b.1⟩

instance : IsTrans (ℤ × Subscription) leNorm :=
  ⟨fun _ _ _ h h' => le_trans h h'⟩

/-- findUpcomingRenewals: normalize now to midnight, take the window end
seven days later, filter to Active, pair each record with its normalized
renewal date, keep the pairs inside the inclusive window, sort ascending by
the normalized date with a stable sort (the JavaScript comparator on
getTime), and drop the pairing. The current time is an explicit argument. -/
def findUpcomingRenewals (now : ℤ) (subscriptions : List Subscription) :
    List Subscription :=
  let today := normalizeDate now
  let sevenDaysFromNow := today + 7 * msPerDay
  let activeSubs := subscriptions.filter (fun s => s.status == "Active")
  let withNorm := activeSubs.map (fun s => (normalizeDate s.renewalDate, s))
  let inWindow := withNorm.filter
    (fun p => decide (today ≤ p.1) && decide (p.1 ≤ sevenDaysFromNow))
  (List.insertionSort leNorm inWindow).map (fun p => p.2)

/-- countRenewalsThisWeek: the length of the renewal window. -/
def countRenewalsThisWeek (now : ℤ) (subscriptions : List Subscription) : ℕ :=
  (findUpcomingRenewals now subscriptions).length

/-- Civil calendar date (year, one-based month, day) of a day number counted
from the epoch, in a zero-offset timezone. -/
def civilFromDays (z0 : ℤ) : ℤ × ℤ × ℤ :=
  let z := z0 + 719468
  let era := z.fdiv 146097
  let doe := z - era * 146097
  let yoe := (doe - doe / 1460 + doe / 36524 - doe / 146096) / 365
  let y := yoe + era * 400
  let doy := doe - (365 * yoe + yoe / 4 - yoe / 100)
  let mp := (5 * doy + 2) / 153
  let d := doy - (153 * mp + 2) / 5 + 1
  let m := mp + (if mp < 10 then 3 else -9)
  (y + (if m ≤ 2 then 1 else 0), m, d)

/-- Date.getFullYear of a timestamp. -/
def getFullYear (t : ℤ) : ℤ := (civilFromDays (t.fdiv msPerDay)).1

/-- Date.getMonth of a timestamp: zero-based month as in JavaScript. -/
def getMonth (t : ℤ) : ℤ := (civilFromDays (t.fdiv msPerDay)).2.1 - 1

/-- calculateMonthlyRenewal from the calendar view: take the viewed date's
year and month, filter to Active records whose stored renewal date has that
year and month, and fold, adding full cost for Monthly and cost divided by
twelve otherwise. -/
def calculateMonthlyRenewal (subscriptions : List Subscription)
    (viewDate : ℤ) : ℚ :=
  let year := getFullYear viewDate
  let month := getMonth viewDate
  let activeSubs := subscriptions.filter (fun s => s.status == "Active")
  let renewalsInMonth := activeSubs.filter
    (fun s => decide (getFullYear s.renewalDate = year)
      && decide (getMonth s.renewalDate = month))
  renewalsInMonth.foldl
    (fun total s =>
      if s.cycle == "Monthly" then total + s.cost else total + s.cost / 12) 0

/-! ### Shared helper lemmas and concrete fixtures -/

/-- Folding an accumulate-only step equals the initial value plus the sum of
the per-element contributions. -/
theorem foldl_add_eq_sum (f : Subscription → ℚ) :
    ∀ (l : List Subscription) (init : ℚ),
      l.foldl (fun t s => t + f s) init = init + (l.map f).sum
  | [], init => by simp
  | s :: l, init => by
    rw [List.foldl_cons, foldl_add_eq_sum f l (init + f s)]
    simp [add_assoc]

/-- The reducer of the two cost computations, rewritten as an
accumulate-only step. -/
theorem costStep_eq (l : List Subscription) (init : ℚ) :
    l.foldl (fun total s =>
        if s.cycle == "Monthly" then total + s.cost else total + s.cost / 12)
      init
      = l.foldl (fun total s =>
          total + (if s.cycle == "Monthly" then s.cost else s.cost / 12)) init := by
  induction l generalizing init with
  | nil => rfl
  | cons s l ih =>
    rw [List.foldl_cons, List.foldl_cons, ih]
    by_cases h : (s.cycle == "Monthly") = true <;> simp [h]

/-- A category drawn from the data model's five-value enum is non-empty. -/
theorem mem_categories_ne_empty {c : String}
    (h : c ∈ ["Software", "Shopping", "Design", "Storage", "Entertainment"]) :
    c ≠ "" := by
  intro he
  subst he
  revert h
  decide

/-- Deserializing a record serialized by the cache writer restores it, as
long as its category is non-empty. -/
theorem decodeRaw_encodeRaw (s : Subscription) (h : s.category ≠ "") :
    decodeRaw (encodeRaw s) = s := by
  cases s with
  | mk id name cost renewalDate cycle status category =>
    simp only [decodeRaw, encodeRaw, jsOrDefault]
    simp only at h
    simp [h]

/-- The empty world: nothing cached, no markers, no remote rows. -/
def stEmpty : State :=
  { localStorage := fun _ => none, remote := fun _ => [], nextId := 0 }

/-- A healthy remote client. -/
def envOK : Env := { listFails := false, deleteFails := false, insertFails := false }

/-- An unreachable remote: every statement fails. -/
def envDown : Env := { listFails := true, deleteFails := true, insertFails := true }

/-- A remote that fails exactly on inserts. -/
def envInsertFail : Env := { listFails := false, deleteFails := false, insertFails := true }

/-- A remote that fails exactly on list queries. -/
def envListFail : Env := { listFails := true, deleteFails := false, insertFails := false }

/-- An Active Monthly subscription at cost 10. -/
def subMonthly : Subscription :=
  { id := "1", name := "Netflix", cost := 10, renewalDate := 0,
    cycle := "Monthly", status := "Active", category := "Software" }

/-- An Active Annually subscription at cost 120. -/
def subAnnual : Subscription :=
  { id := "2", name := "Dropbox", cost := 120, renewalDate := 0,
    cycle := "Annually", status := "Active", category := "Storage" }

/-- A Trial Monthly subscription at cost 50. -/
def subTrial : Subscription :=
  { id := "3", name := "Figma", cost := 50, renewalDate := 0,
    cycle := "Monthly", status := "Trial", category := "Design" }

/-- C6: For every list of subscriptions, the monthly-equivalent cost is the
sum over Active subscriptions of the cost for a Monthly cycle and the cost
divided by twelve for an Annually cycle, Trial subscriptions contributing
nothing; and on the worked example Active-Monthly-10, Active-Annually-120,
Trial-Monthly-50 the result is 20. -/
theorem calculateTotalMonthlyCost_spec :
    (∀ subscriptions : List Subscription,
      calculateTotalMonthlyCost subscriptions =
        ((subscriptions.filter (fun s => s.status == "Active")).map
          (fun s => if s.cycle == "Monthly" then s.cost else s.cost / 12)).sum)
    ∧ calculateTotalMonthlyCost [subMonthly, subAnnual, subTrial] = 20 := by
  constructor
  · intro subscriptions
    rw [calculateTotalMonthlyCost, costStep_eq, foldl_add_eq_sum]
    simp
  · simp [calculateTotalMonthlyCost, subMonthly, subAnnual, subTrial]
    norm_num

/-- An Active Monthly subscription whose stored renewal date is day 40 of
the epoch, which is in February 1970. -/
def subFebruary : Subscription :=
  { id := "4", name := "Spotify", cost := 10, renewalDate := 40 * msPerDay,
    cycle := "Monthly", status := "Active", category := "Entertainment" }

/-- C8: For every list of subscriptions and target month, the calendar-month
renewal amount is the sum over Active subscriptions whose single stored
renewal date has the target year and month of full cost for a Monthly cycle
and cost divided by twelve for Annually; a Monthly subscription whose stored
date lies in a different month contributes nothing, as the concrete January
1970 view over a February 1970 record shows (recurrence is not modelled). -/
theorem calculateMonthlyRenewal_spec :
    (∀ (subscriptions : List Subscription) (viewDate : ℤ),
      calculateMonthlyRenewal subscriptions viewDate =
        ((subscriptions.filter (fun s => s.status == "Active"
            && decide (getFullYear s.renewalDate = getFullYear viewDate)
            && decide (getMonth s.renewalDate = getMonth viewDate))).map
          (fun s => if s.cycle == "Monthly" then s.cost else s.cost / 12)).sum)
    ∧ calculateMonthlyRenewal [subFebruary] 0 = 0
    ∧ calculateMonthlyRenewal [subFebruary] (40 * msPerDay) = 10 := by
  refine ⟨?_, ?_, ?_⟩
  · intro subscriptions viewDate
    have hf : List.filter
        (fun s => (decide (getFullYear s.renewalDate = getFullYear viewDate)
            && decide (getMonth s.renewalDate = getMonth viewDate))
          && (s.status == "Active")) subscriptions
        = List.filter (fun s => s.status == "Active"
            && decide (getFullYear s.renewalDate = getFullYear viewDate)
            && decide (getMonth s.renewalDate = getMonth viewDate)) subscriptions := by
      apply List.filter_congr
      intro s _
      cases h : (s.status == "Active") <;> simp [h]
    rw [calculateMonthlyRenewal, costStep_eq, foldl_add_eq_sum,
      List.filter_filter, hf]
    simp
  · simp [calculateMonthlyRenewal, subFebruary, getFullYear, getMonth,
      civilFromDays, msPerDay]
  · simp [calculateMonthlyRenewal, subFebruary, getFullYear, getMonth,
      civilFromDays, msPerDay]

/-- C9: For every owner key and every list of data-model subscriptions,
whose categories are drawn from the five-value enum, saving to the Local
Cache Store and loading back under the same owner key restores the list
with every field intact, the renewal date round-tripping losslessly. -/
theorem local_save_load_roundtrip (st : State) (username : String)
    (subs : List Subscription)
    (h : ∀ s ∈ subs,
      s.category ∈ ["Software", "Shopping", "Design", "Storage", "Entertainment"]) :
    loadSubscriptionsLocal (saveSubscriptionsLocal st subs username) username
      = subs := by
  unfold loadSubscriptionsLocal saveSubscriptionsLocal
  dsimp only
  rw [if_pos rfl]
  show List.map decodeRaw (List.map encodeRaw subs) = subs
  rw [List.map_map]
  rw [List.map_congr_left (g := id)]
  · exact List.map_id subs
  · intro s hs
    exact decodeRaw_encodeRaw s (mem_categories_ne_empty (h s hs))

/-- Witness for the round-trip theorem at a concrete owner key, for both a
non-empty and the empty list. -/
theorem local_save_load_roundtrip_witness :
    loadSubscriptionsLocal
        (saveSubscriptionsLocal stEmpty [subMonthly, subAnnual] "alice") "alice"
      = [subMonthly, subAnnual]
    ∧ loadSubscriptionsLocal (saveSubscriptionsLocal stEmpty [] "alice") "alice"
      = [] :=
  ⟨local_save_load_roundtrip stEmpty "alice" [subMonthly, subAnnual]
      (by decide),
   local_save_load_roundtrip stEmpty "alice" [] (by decide)⟩

/-- C10: For every cached blob that deserializes, loading from the Local
Cache Store returns one record per stored record, replacing the category by
Software exactly when the stored category is missing or empty and keeping
every other field as stored; consequently the per-record cache round-trip is
the identity precisely when the category is non-empty; and only whole-blob
deserialization failure (or an absent key) degrades to the empty list. -/
theorem local_load_category_defaulting :
    (∀ (st : State) (u : String) (raws : List RawSub),
      st.localStorage (getStorageKey u) = some (Item.blob (Blob.ok raws)) →
        loadSubscriptionsLocal st u = raws.map (fun r =>
          { id := r.id, name := r.name, cost := r.cost,
            renewalDate := r.renewalDate, cycle := r.cycle, status := r.status,
            category := match r.category with
              | none => "Software"
              | some c => if c = "" then "Software" else c }))
    ∧ (∀ (st : State) (u : String),
        st.localStorage (getStorageKey u) = some (Item.blob Blob.corrupt) →
          loadSubscriptionsLocal st u = [])
    ∧ (∀ (st : State) (u : String),
        st.localStorage (getStorageKey u) = none →
          loadSubscriptionsLocal st u = [])
    ∧ (∀ (st : State) (u : String) (s : Subscription),
        loadSubscriptionsLocal (saveSubscriptionsLocal st [s] u) u = [s]
          ↔ s.category ≠ "") := by
  refine ⟨?_, ?_, ?_, ?_⟩
  · intro st u raws hst
    rw [loadSubscriptionsLocal, hst]
    apply List.map_congr_left
    intro r _
    cases r with
    | mk id name cost renewalDate cycle status category =>
      cases category with
      | none => simp [decodeRaw, jsOrDefault]
      | some c => simp [decodeRaw, jsOrDefault]
  · intro st u hst
    rw [loadSubscriptionsLocal, hst]
  · intro st u hst
    rw [loadSubscriptionsLocal, hst]
  · intro st u s
    unfold loadSubscriptionsLocal saveSubscriptionsLocal
    dsimp only
    rw [if_pos rfl]
    show List.map decodeRaw (List.map encodeRaw [s]) = [s] ↔ s.category ≠ ""
    constructor
    · intro hl hc
      cases s with
      | mk id name cost renewalDate cycle status category =>
        simp only at hc
        subst hc
        simp [decodeRaw, encodeRaw, jsOrDefault] at hl
    · intro hc
      simp [decodeRaw_encodeRaw s hc]

/-- A cached record from before the category field existed. -/
def rawNoCat : RawSub :=
  { id := "a", name := "Old", cost := 5, renewalDate := 0,
    cycle := "Monthly", status := "Active", category := none }

/-- A cached record whose stored category is the empty string. -/
def rawEmptyCat : RawSub :=
  { id := "b", name := "Blank", cost := 6, renewalDate := msPerDay,
    cycle := "Annually", status := "Trial", category := some "" }

/-- A cached record with an ordinary category. -/
def rawDesignCat : RawSub :=
  { id := "c", name := "Figma", cost := 7, renewalDate := 2 * msPerDay,
    cycle := "Monthly", status := "Active", category := some "Design" }

/-- A world whose cache for the owner bob holds the three records above. -/
def stRawEx : State :=
  { localStorage := fun k =>
      if k = getStorageKey "bob"
        then some (Item.blob (Blob.ok [rawNoCat, rawEmptyCat, rawDesignCat]))
        else none,
    remote := fun _ => [], nextId := 0 }

/-- A world whose cached blob for bob does not parse. -/
def stCorruptEx : State :=
  { localStorage := fun k =>
      if k = getStorageKey "bob" then some (Item.blob Blob.corrupt) else none,
    remote := fun _ => [], nextId := 0 }

/-- An in-memory record whose category is the empty string. -/
def subEmptyCat : Subscription :=
  { id := "d", name := "NoCat", cost := 8, renewalDate := 0,
    cycle := "Monthly", status := "Active", category := "" }

/-- Witness for the category-defaulting theorem: the two falsy categories
load as Software and the ordinary one survives, a corrupt blob and an absent
key load as empty, and the round-trip moves the empty-category record. -/
theorem local_load_category_defaulting_witness :
    loadSubscriptionsLocal stRawEx "bob" =
      [{ id := "a", name := "Old", cost := 5, renewalDate := 0,
         cycle := "Monthly", status := "Active", category := "Software" },
       { id := "b", name := "Blank", cost := 6, renewalDate := msPerDay,
         cycle := "Annually", status := "Trial", category := "Software" },
       { id := "c", name := "Figma", cost := 7, renewalDate := 2 * msPerDay,
         cycle := "Monthly", status := "Active", category := "Design" }]
    ∧ loadSubscriptionsLocal stCorruptEx "bob" = []
    ∧ loadSubscriptionsLocal stEmpty "bob" = []
    ∧ ¬ (loadSubscriptionsLocal (saveSubscriptionsLocal stEmpty [subEmptyCat] "bob") "bob"
          = [subEmptyCat]) := by
  have h := local_load_category_defaulting
  refine ⟨?_, h.2.1 stCorruptEx "bob" rfl, h.2.2.1 stEmpty "bob" rfl, ?_⟩
  · rw [h.1 stRawEx "bob" [rawNoCat, rawEmptyCat, rawDesignCat] rfl]
    decide
  · intro hl
    exact (h.2.2.2 stEmpty "bob" subEmptyCat).1 hl rfl

/-- C5: replaceAll is delete-then-insert and not atomic: for every owner,
input list and starting state, when the delete statement succeeds and the
insert statement fails, the operation reports failure and the remote store
holds no rows for that owner — the non-empty input makes the insert phase
run, and the failure there strikes after the delete already committed. -/
theorem saveSubscriptionsToDB_failure_after_delete (env : Env) (st : State)
    (subscriptions : List Subscription) (userId : String)
    (hd : env.deleteFails = false) (hi : env.insertFails = true)
    (hne : subscriptions ≠ []) :
    (saveSubscriptionsToDB env st subscriptions userId).1 = false
    ∧ (saveSubscriptionsToDB env st subscriptions userId).2.1.remote userId
        = [] := by
  have hlen : 0 < subscriptions.length := List.length_pos.mpr hne
  rw [saveSubscriptionsToDB]
  rw [hd]
  simp only [Bool.false_eq_true, if_false, if_pos hlen, hi, if_true]
  simp

/-- Witness: a concrete insert-failing save over a previously non-empty
remote row set reports failure and leaves the owner with no rows. -/
theorem saveSubscriptionsToDB_failure_after_delete_witness :
    envInsertFail.deleteFails = false ∧ envInsertFail.insertFails = true
    ∧ ([subMonthly] : List Subscription) ≠ []
    ∧ (saveSubscriptionsToDB envInsertFail stEmpty [subMonthly] "u1").1 = false
    ∧ (saveSubscriptionsToDB envInsertFail stEmpty [subMonthly] "u1").2.1.remote "u1"
        = [] :=
  ⟨rfl, rfl, by decide,
   (saveSubscriptionsToDB_failure_after_delete envInsertFail stEmpty
      [subMonthly] "u1" rfl rfl (by decide)).1,
   (saveSubscriptionsToDB_failure_after_delete envInsertFail stEmpty
      [subMonthly] "u1" rfl rfl (by decide)).2⟩

/-- A world where the owner alice has one cached subscription and nothing
has been migrated. -/
def stCached : State := saveSubscriptionsLocal stEmpty [subMonthly] "alice"

/-- C4 counterexample: under a remote whose inserts fail, the first
migration call cannot set the marker, so the second call retries and
executes a delete statement — one write, not zero. The claim that the
second of two successive migrateIfNeeded calls always performs zero writes
is therefore false. -/
theorem migrate_second_call_writes_counterexample :
    (migrateSubscriptionsToDB envInsertFail
        ((migrateSubscriptionsToDB envInsertFail stCached "u1" "alice").1)
        "u1" "alice").2 ≠ 0 := by
  decide

/-- C4 amended: whenever the first migrateIfNeeded call ends with the
migration marker set for the owner id — which is every call whose remote
write succeeded or that found an empty cache — the second call returns
immediately: it performs zero writes to either store and leaves the state
exactly as the first call left it, so two calls produce the same remote
state as one. -/
theorem migrateSubscriptionsToDB_idempotent_once_marked (env : Env)
    (st : State) (userId username : String)
    (h : markerSet ((migrateSubscriptionsToDB env st userId username).1) userId
          = true) :
    migrateSubscriptionsToDB env
        ((migrateSubscriptionsToDB env st userId username).1) userId username
      = ((migrateSubscriptionsToDB env st userId username).1, 0) := by
  generalize (migrateSubscriptionsToDB env st userId username).1 = st1 at h ⊢
  unfold migrateSubscriptionsToDB
  rw [if_pos h]

/-- Witness: with a healthy remote and a non-empty cache, the first call
sets the marker, and the second call is the identity with zero writes. -/
theorem migrateSubscriptionsToDB_idempotent_once_marked_witness :
    markerSet ((migrateSubscriptionsToDB envOK stCached "u1" "alice").1) "u1"
        = true
    ∧ migrateSubscriptionsToDB envOK
        ((migrateSubscriptionsToDB envOK stCached "u1" "alice").1) "u1" "alice"
      = ((migrateSubscriptionsToDB envOK stCached "u1" "alice").1, 0) :=
  ⟨by decide,
   migrateSubscriptionsToDB_idempotent_once_marked envOK stCached "u1" "alice"
     (by decide)⟩

/-- The facade load algorithm exactly as the specification words steps 2 and
3: with an owner id, query the Remote Store Adapter; a non-empty answer, or
any answer once the migration marker is set, is authoritative; otherwise
invoke the Migration Engine, re-query, and return the re-query's answer.
Stated over the same component operations as the code, for comparison. -/
def loadFacadeSpec (env : Env) (st : State) (userKey uid : String) :
    List Subscription × State :=
  let remoteResult := loadSubscriptionsFromDB env st uid
  if remoteResult ≠ [] ∨ markerSet st uid = true then (remoteResult, st)
  else
    let m := migrateSubscriptionsToDB env st uid userKey
    (loadSubscriptionsFromDB env m.1 uid, m.1)

/-- The facade load algorithm as amended: the Migration Engine is invoked in
the otherwise-branch only when the local cache under the owner key is
non-empty; with an empty cache the first query's empty answer is returned
and nothing is touched. -/
def loadFacadeSpecAmended (env : Env) (st : State) (userKey uid : String) :
    List Subscription × State :=
  let remoteResult := loadSubscriptionsFromDB env st uid
  if remoteResult ≠ [] ∨ markerSet st uid = true then (remoteResult, st)
  else if loadSubscriptionsLocal st userKey ≠ [] then
    let m := migrateSubscriptionsToDB env st uid userKey
    (loadSubscriptionsFromDB env m.1 uid, m.1)
  else (remoteResult, st)

/-- C3 counterexample: in a world with an empty remote, an unset marker and
an empty cache — squarely the claim's otherwise-branch — the specified
algorithm invokes the Migration Engine, whose observable effect here is
setting the marker, while the implemented load returns without invoking it:
the two final states disagree on the marker. -/
theorem load_skips_migration_counterexample :
    loadSubscriptionsFromDB envOK stEmpty "u1" = []
    ∧ markerSet stEmpty "u1" = false
    ∧ markerSet ((loadSubscriptions envOK stEmpty "alice" (some "u1")).2) "u1"
        = false
    ∧ markerSet ((loadFacadeSpec envOK stEmpty "alice" "u1").2) "u1" = true := by
  decide

/-- C3 amended: for every load with an owner id, the implemented facade
follows the specified algorithm with one extra guard: the otherwise-branch
migrates and re-queries only when the local cache under the owner key is
non-empty, and returns the first query's empty answer untouched when the
cache is empty too. -/
theorem loadSubscriptions_matches_amended_spec (env : Env) (st : State)
    (userKey uid : String) :
    loadSubscriptions env st userKey (some uid)
      = loadFacadeSpecAmended env st userKey uid := by
  simp only [loadSubscriptions, loadFacadeSpecAmended, List.length_pos]

/-- A world where the owner alice has one cached subscription, identity u1
is marked migrated, and the remote holds no rows. -/
def stMigratedCache : State :=
  saveSubscriptionsLocal (setMarker stEmpty "u1") [subMonthly] "alice"

/-- C1: with the remote unreachable, the adapter absorbs the list error into
an empty answer, the marker being set makes the facade treat that answer as
authoritative, and load returns the empty list even though the Local Cache
Store holds a non-empty list for the owner key — the specified fallback to
the cache does not happen, because the catch that would perform it can never
be reached once the adapter has already absorbed the error. -/
theorem load_remote_failure_returns_empty_not_cache :
    (loadSubscriptions envDown stMigratedCache "alice" (some "u1")).1 = []
    ∧ loadSubscriptionsLocal stMigratedCache "alice" = [subMonthly]
    ∧ ([subMonthly] : List Subscription) ≠ [] := by
  decide

/-- A remote row of owner u1. -/
def rowU1 : DBSub :=
  { id := "r1", user_id := "u1", name := "Hulu", cost := 5, renewal_date := 0,
    cycle := "Monthly", status := "Active", category := "Entertainment" }

/-- A world whose remote holds one row for u1 and whose cache is empty. -/
def stRemoteRows : State :=
  { localStorage := fun _ => none,
    remote := fun k => if k = "u1" then [rowU1] else [], nextId := 0 }

/-- C2 counterexample: a failing list query over an owner who has remote
rows returns exactly the same value as a successful list query over an owner
with no rows — the empty list — so a failed list is not distinguishable from
a successful empty list, even though a successful query over the same data
is non-empty. -/
theorem remote_list_failure_indistinguishable :
    loadSubscriptionsFromDB envListFail stRemoteRows "u1"
      = loadSubscriptionsFromDB envOK stEmpty "u1"
    ∧ loadSubscriptionsFromDB envOK stRemoteRows "u1" ≠ [] := by
  decide

/-- C2 amended: replaceAll failures are surfaced as a failure result
distinguishable from success — it reports false exactly when the delete
fails or the list is non-empty and the insert fails — but a failed list
query is absorbed by the adapter and yields the empty list. -/
theorem adapter_failure_surfacing (env : Env) (st : State)
    (subscriptions : List Subscription) (userId : String) :
    ((saveSubscriptionsToDB env st subscriptions userId).1 = false ↔
      (env.deleteFails = true
        ∨ (env.insertFails = true ∧ subscriptions ≠ [])))
    ∧ (env.listFails = true → loadSubscriptionsFromDB env st userId = []) := by
  refine ⟨?_, ?_⟩
  · by_cases hd : env.deleteFails = true
    · simp [saveSubscriptionsToDB, hd]
    · have hd' : env.deleteFails = false := by
        revert hd; cases env.deleteFails <;> simp
      by_cases hne : subscriptions = []
      · subst hne; simp [saveSubscriptionsToDB, hd']
      · have hlen : 0 < subscriptions.length := List.length_pos.mpr hne
        by_cases hi : env.insertFails = true
        · simp [saveSubscriptionsToDB, hd', hi, hlen, hne]
        · have hi' : env.insertFails = false := by
            revert hi; cases env.insertFails <;> simp
          simp [saveSubscriptionsToDB, hd', hi', hlen, hne]
  · intro h
    rw [loadSubscriptionsFromDB, if_pos h]

/-- Witness: the amended surfacing at concrete inputs — a failing insert
reports false and a failing list query yields the empty list. -/
theorem adapter_failure_surfacing_witness :
    (saveSubscriptionsToDB envInsertFail stEmpty [subMonthly] "u1").1 = false
    ∧ loadSubscriptionsFromDB envListFail stRemoteRows "u1" = [] :=
  ⟨(adapter_failure_surfacing envInsertFail stEmpty [subMonthly] "u1").1.mpr
     (Or.inr ⟨rfl, by decide⟩),
   (adapter_failure_surfacing envListFail stRemoteRows [] "u1").2 rfl⟩

/-- The renewal window keeps exactly the Active records whose normalized
renewal date lies in the inclusive seven-day window: the result is a
permutation of that filter of the input. -/
theorem findUpcomingRenewals_perm (now : ℤ) (subscriptions : List Subscription) :
    (findUpcomingRenewals now subscriptions).Perm
      (subscriptions.filter (fun s => s.status == "Active"
        && decide (normalizeDate now ≤ normalizeDate s.renewalDate)
        && decide (normalizeDate s.renewalDate ≤ normalizeDate now + 7 * msPerDay))) := by
  have h1 := List.perm_insertionSort leNorm
    (((subscriptions.filter (fun s => s.status == "Active")).map
        (fun s => (normalizeDate s.renewalDate, s))).filter
      (fun p => decide (normalizeDate now ≤ p.1)
        && decide (p.1 ≤ normalizeDate now + 7 * msPerDay)))
  have h2 := h1.map (fun p : ℤ × Subscription => p.2)
  refine List.Perm.trans h2 ?_
  rw [List.filter_map]
  rw [List.map_map]
  have hid : ((fun p : ℤ × Subscription => p.2) ∘
      (fun s : Subscription => (normalizeDate s.renewalDate, s))) = id := rfl
  rw [hid, List.map_id, List.filter_filter]
  apply List.Perm.of_eq
  apply List.filter_congr
  intro s _
  cases ha : (s.status == "Active") <;> simp [ha]

/-- The renewal window is sorted ascending by normalized renewal date. -/
theorem findUpcomingRenewals_sorted (now : ℤ) (subscriptions : List Subscription) :
    List.Sorted
      (fun a b => normalizeDate a.renewalDate ≤ normalizeDate b.renewalDate)
      (findUpcomingRenewals now subscriptions) := by
  have hsorted := List.sorted_insertionSort leNorm
    (((subscriptions.filter (fun s => s.status == "Active")).map
        (fun s => (normalizeDate s.renewalDate, s))).filter
      (fun p => decide (normalizeDate now ≤ p.1)
        && decide (p.1 ≤ normalizeDate now + 7 * msPerDay)))
  have hmem : ∀ p ∈ List.insertionSort leNorm
      (((subscriptions.filter (fun s => s.status == "Active")).map
          (fun s => (normalizeDate s.renewalDate, s))).filter
        (fun p => decide (normalizeDate now ≤ p.1)
          && decide (p.1 ≤ normalizeDate now + 7 * msPerDay))),
      p.1 = normalizeDate p.2.renewalDate := by
    intro p hp
    have hpF := (List.mem_insertionSort leNorm).mp hp
    have hpW := List.mem_of_mem_filter hpF
    rcases List.mem_map.mp hpW with ⟨s, _, rfl⟩
    rfl
  show List.Pairwise _ _
  exact List.pairwise_map.mpr
    (hsorted.imp_of_mem (fun {a b} ha hb hr => by
      show normalizeDate a.2.renewalDate ≤ normalizeDate b.2.renewalDate
      rw [← hmem a ha, ← hmem b hb]
      exact hr))

/-- An Active subscription renewing exactly on day 7. -/
def subDay7 : Subscription :=
  { id := "7", name := "Seven", cost := 1, renewalDate := 7 * msPerDay,
    cycle := "Monthly", status := "Active", category := "Software" }

/-- An Active subscription renewing on day 8. -/
def subDay8 : Subscription :=
  { id := "8", name := "Eight", cost := 2, renewalDate := 8 * msPerDay,
    cycle := "Monthly", status := "Active", category := "Shopping" }

/-- A Trial subscription renewing on day 3, inside the window by date. -/
def subTrialDay3 : Subscription :=
  { id := "t", name := "TrialSub", cost := 3, renewalDate := 3 * msPerDay,
    cycle := "Monthly", status := "Trial", category := "Design" }

/-- C7: the renewal-window function returns exactly the Active subscriptions
whose renewal date normalized to midnight lies in the closed interval from
today through today plus seven days, sorted ascending by normalized renewal
date; with today day 0, a record renewing on day 7 is kept while one on day
8 and a Trial record on day 3 are dropped. -/
theorem findUpcomingRenewals_spec :
    (∀ (now : ℤ) (subscriptions : List Subscription),
      (findUpcomingRenewals now subscriptions).Perm
        (subscriptions.filter (fun s => s.status == "Active"
          && decide (normalizeDate now ≤ normalizeDate s.renewalDate)
          && decide (normalizeDate s.renewalDate
              ≤ normalizeDate now + 7 * msPerDay)))
      ∧ List.Sorted
          (fun a b => normalizeDate a.renewalDate ≤ normalizeDate b.renewalDate)
          (findUpcomingRenewals now subscriptions))
    ∧ findUpcomingRenewals 0 [subDay7, subDay8, subTrialDay3] = [subDay7] :=
  ⟨fun now subscriptions =>
    ⟨findUpcomingRenewals_perm now subscriptions,
     findUpcomingRenewals_sorted now subscriptions⟩,
   by decide⟩
